import Mathlib

/-
Shallow embedding of `day1/02_streamlit_app/app.py`, the entry-point script
of the Gemma 2 chatbot demo.

The script runs top to bottom on every rendering pass.  We embed one pass as
a pure function from its inputs (whether each initialization step fails, the
outcome of the model-construction body, the session-stored page, the radio
selection) to an ordered trace of user-visible effects plus the updated
session state.  `st.stop()` and `st.rerun()` both abort the current pass, so
the embedding returns from the pass at those points.  The process-wide
`st.cache_resource` memoization of `load_model_cached` is embedded as
explicit cache state threaded across passes.

Purely static decorative output (page config, titles, captions, dividers,
the developer-info line, the footer) carries no state and no claim concerns
it, so it is elided from the effect trace; every conditional or
collaborator-invoking output is kept.
-/

namespace StreamlitApp

/-- Opaque model handle (`pipe` in the source), identified by a tag so that
distinct constructions are distinguishable. -/
structure ModelPipe where
  tag : Nat
deriving DecidableEq, Repr

/-- Outcome of the model-construction body of `load_model_cached`
(app.py lines 48-75): either the `pipeline(...)` call succeeds, or it raises
`ImportError`, or it raises some other exception. -/
inductive LoadOutcome where
  | success (p : ModelPipe)
  | importError
  | otherError
deriving DecidableEq, Repr

/-- User-visible effects and collaborator invocations produced by one
rendering pass, in source order. -/
inductive Effect where
  | warningNLTK            -- line 27: st.warning on metrics.initialize_nltk failure
  | errorDBInit            -- line 33: st.error on database.init_db failure
  | stStop                 -- line 34: st.stop()
  | warningSeed            -- line 40: st.warning on data.ensure_initial_data failure
  | successModelLoaded     -- line 63: st.success inside load_model_cached body
  | errorImportModel       -- line 66: st.error on ImportError
  | infoInstallHint        -- line 67: st.info install hint
  | errorModelLoad         -- line 71: st.error on generic load failure
  | errorModelDetail       -- line 72: st.error with exception detail
  | warningModelHint       -- line 73: st.warning with troubleshooting hint
  | stRerun                -- line 122: st.rerun()
  | successModelReady      -- line 128: sidebar model status (success)
  | errorModelFailed       -- line 130: sidebar model status (failure)
  | headerChat             -- line 151: chat page header
  | displayChatPage (p : ModelPipe)   -- line 154: ui.display_chat_page(pipe)
  | errorChatUnavailable   -- line 156: st.error, chat unavailable
  | infoChatCheck          -- line 157: st.info, check sidebar/logs
  | headerHistory          -- line 160: history page header
  | displayHistoryPage     -- line 162: ui.display_history_page()
  | headerData             -- line 165: data page header
  | displayDataPage        -- line 167: ui.display_data_page()
deriving DecidableEq, Repr

/-- "チャット", the chat page identifier and default page (line 91). -/
def chatPage : String := "チャット"

/-- "履歴閲覧", the history page identifier. -/
def historyPage : String := "履歴閲覧"

/-- "サンプルデータ管理", the sample-data-management page identifier. -/
def dataPage : String := "サンプルデータ管理"

/-- `page_options = list(pages.keys())` (lines 94-99): the fixed ordered
list of page identifiers. -/
def page_options : List String := [chatPage, historyPage, dataPage]

/-- Python's `list.index`: position of the first occurrence, or `none` where
Python raises `ValueError` (the value does not occur). -/
def listIndex (s : String) : List String → Option Nat
  | [] => none
  | p :: rest => if p = s then some 0 else (listIndex s rest).map (· + 1)

/-- Lines 102-106: resolve the current selection index from the stored page.
`page_options.index` raising `ValueError` is caught; the handler uses index 0
and resets the stored page to `page_options[0]` (= `chatPage`).  Returns
(current index, stored page after resolution); total, no error escapes. -/
def resolveSelection (stored : String) : Nat × String :=
  match listIndex stored page_options with
  | some i => (i, stored)
  | none => (0, chatPage)

/-- Lines 90-91: if no `page` key exists in session state, default it to
`chatPage`. -/
def initPage (s : Option String) : String := s.getD chatPage

/-- The body of `load_model_cached` (lines 48-75): returns the constructed
handle with a success message, or `None` with the error messages of the
matching `except` clause. -/
def loadModelBody (o : LoadOutcome) : Option ModelPipe × List Effect :=
  match o with
  | LoadOutcome.success p => (some p, [Effect.successModelLoaded])
  | LoadOutcome.importError => (none, [Effect.errorImportModel, Effect.infoInstallHint])
  | LoadOutcome.otherError =>
      (none, [Effect.errorModelLoad, Effect.errorModelDetail, Effect.warningModelHint])

/-- Result of one call to the `st.cache_resource`-wrapped function:
the returned handle, the cache afterwards, whether the body actually ran,
and the effects emitted by the body (none on a cache hit). -/
structure LoadCallResult where
  pipe : Option ModelPipe
  cache : Option (Option ModelPipe)
  bodyRan : Bool
  effects : List Effect
deriving DecidableEq, Repr

/-- `load_model_cached` under `@st.cache_resource` (lines 45-78): on a cache
hit the memoized value (even `None`) is returned without running the body;
on a miss the body runs once and its result is stored. -/
def load_model_cached (cache : Option (Option ModelPipe)) (o : LoadOutcome) :
    LoadCallResult :=
  match cache with
  | some v => { pipe := v, cache := some v, bodyRan := false, effects := [] }
  | none =>
      let r := loadModelBody o
      { pipe := r.1, cache := some r.1, bodyRan := true, effects := r.2 }

/-- Lines 127-130: sidebar model status display. -/
def modelStatus (pipe : Option ModelPipe) : Effect :=
  match pipe with
  | some _ => Effect.successModelReady
  | none => Effect.errorModelFailed

/-- Lines 148-167: the page dispatch in `main_container`, an if/elif chain
on `st.session_state.page`. -/
def dispatchPage (page : String) (pipe : Option ModelPipe) : List Effect :=
  if page = chatPage then
    Effect.headerChat ::
      (match pipe with
       | some p => [Effect.displayChatPage p]
       | none => [Effect.errorChatUnavailable, Effect.infoChatCheck])
  else if page = historyPage then
    [Effect.headerHistory, Effect.displayHistoryPage]
  else if page = dataPage then
    [Effect.headerData, Effect.displayDataPage]
  else []

/-- Effects of the two non-fatal initialization steps that precede the model
load on a pass where database init succeeds: the NLTK warning (line 27) then
the seed-data warning (line 40). -/
def preEffects (nltkFails seedFails : Bool) : List Effect :=
  (if nltkFails then [Effect.warningNLTK] else []) ++
  (if seedFails then [Effect.warningSeed] else [])

/-- Inputs of one rendering pass: whether each fallible initialization step
raises, the outcome the model-construction body would have, the session-state
`page` value before the pass (absent on a fresh session), and the page the
radio selector returns. -/
structure PassInput where
  nltkFails : Bool
  dbFails : Bool
  seedFails : Bool
  loadOutcome : LoadOutcome
  sessionPage : Option String
  selectedPage : String
deriving DecidableEq, Repr

/-- Result of one rendering pass: the ordered effect trace, the session-state
`page` value afterwards, whether the model-construction body ran during this
pass, and the process cache afterwards. -/
structure PassOutput where
  effects : List Effect
  sessionPage : Option String
  bodyRan : Bool
  cache : Option (Option ModelPipe)
deriving DecidableEq, Repr

/-- The model handle a pass with the given cache and inputs would hold
(`pipe` at line 78). -/
def passPipe (cache : Option (Option ModelPipe)) (inp : PassInput) : Option ModelPipe :=
  (load_model_cached cache inp.loadOutcome).pipe

/-- The stored page after the initialize (lines 90-91) and resolve
(lines 102-106) steps of a pass. -/
def resolvedPage (inp : PassInput) : String :=
  (resolveSelection (initPage inp.sessionPage)).2

/-- One top-to-bottom execution of app.py.  `st.stop()` (line 34) and
`st.rerun()` (line 122) abort the pass at that point.  On a pass that is not
aborted, the effect order is: init warnings, load-body messages, sidebar
model status, then the page dispatch; on an `st.rerun` abort the pass ends
right after the rerun request; on a database failure it ends at `st.stop`
before the seed step and the model load. -/
def runPass (cache : Option (Option ModelPipe)) (inp : PassInput) : PassOutput :=
  if inp.dbFails then
    { effects := (if inp.nltkFails then [Effect.warningNLTK] else []) ++
        [Effect.errorDBInit, Effect.stStop],
      sessionPage := inp.sessionPage, bodyRan := false, cache := cache }
  else
    let lr := load_model_cached cache inp.loadOutcome
    if inp.selectedPage ≠ resolvedPage inp then
      { effects := preEffects inp.nltkFails inp.seedFails ++ lr.effects ++
          [Effect.stRerun],
        sessionPage := some inp.selectedPage, bodyRan := lr.bodyRan, cache := lr.cache }
    else
      { effects := preEffects inp.nltkFails inp.seedFails ++ lr.effects ++
          [modelStatus lr.pipe] ++ dispatchPage (resolvedPage inp) lr.pipe,
        sessionPage := some (resolvedPage inp), bodyRan := lr.bodyRan, cache := lr.cache }

/-- A sequence of rendering passes of one process, threading the
`st.cache_resource` cache; returns the final cache and how many times the
model-construction body ran. -/
def runPasses (cache : Option (Option ModelPipe)) :
    List PassInput → Option (Option ModelPipe) × Nat
  | [] => (cache, 0)
  | inp :: rest =>
      let out := runPass cache inp
      let r := runPasses out.cache rest
      (r.1, (if out.bodyRan then 1 else 0) + r.2)

/-! ### Helper lemmas -/

theorem listIndex_eq_none_of_not_mem (s : String) (l : List String) (h : s ∉ l) :
    listIndex s l = none := by
  induction l with
  | nil => rfl
  | cons p rest ih =>
      simp only [List.mem_cons, not_or] at h
      simp [listIndex, if_neg (fun hh : p = s => h.1 hh.symm), ih h.2]

theorem mem_of_listIndex_eq_some (s : String) (l : List String) (i : Nat)
    (h : listIndex s l = some i) : s ∈ l := by
  induction l generalizing i with
  | nil => simp [listIndex] at h
  | cons p rest ih =>
      by_cases hp : p = s
      · exact hp ▸ List.mem_cons_self _ _
      · rw [listIndex, if_neg hp] at h
        cases hm : listIndex s rest with
        | none => rw [hm] at h; simp at h
        | some j => exact List.mem_cons_of_mem _ (ih j hm)

theorem resolveSelection_snd_mem (s : String) : (resolveSelection s).2 ∈ page_options := by
  rw [resolveSelection]
  cases h : listIndex s page_options with
  | none => simp [page_options]
  | some i => simpa using mem_of_listIndex_eq_some s page_options i h

theorem resolvedPage_mem (inp : PassInput) : resolvedPage inp ∈ page_options :=
  resolveSelection_snd_mem _

theorem displayChat_not_mem_core (n s : Bool) (c : Option (Option ModelPipe))
    (o : LoadOutcome) (p : ModelPipe) :
    Effect.displayChatPage p ∉ preEffects n s ++ (load_model_cached c o).effects := by
  cases n <;> cases s <;> cases c <;> cases o <;>
    simp [preEffects, load_model_cached, loadModelBody]

theorem displayHistory_not_mem_core (n s : Bool) (c : Option (Option ModelPipe))
    (o : LoadOutcome) :
    Effect.displayHistoryPage ∉ preEffects n s ++ (load_model_cached c o).effects := by
  cases n <;> cases s <;> cases c <;> cases o <;>
    simp [preEffects, load_model_cached, loadModelBody]

theorem displayData_not_mem_core (n s : Bool) (c : Option (Option ModelPipe))
    (o : LoadOutcome) :
    Effect.displayDataPage ∉ preEffects n s ++ (load_model_cached c o).effects := by
  cases n <;> cases s <;> cases c <;> cases o <;>
    simp [preEffects, load_model_cached, loadModelBody]

theorem stRerun_not_mem_core (n s : Bool) (c : Option (Option ModelPipe))
    (o : LoadOutcome) :
    Effect.stRerun ∉ preEffects n s ++ (load_model_cached c o).effects := by
  cases n <;> cases s <;> cases c <;> cases o <;>
    simp [preEffects, load_model_cached, loadModelBody]

theorem chatNotice_not_mem_core (n s : Bool) (c : Option (Option ModelPipe))
    (o : LoadOutcome) :
    Effect.errorChatUnavailable ∉ preEffects n s ++ (load_model_cached c o).effects := by
  cases n <;> cases s <;> cases c <;> cases o <;>
    simp [preEffects, load_model_cached, loadModelBody]

theorem stRerun_not_mem_status (pipe : Option ModelPipe) :
    Effect.stRerun ∉ [modelStatus pipe] := by
  cases pipe <;> simp [modelStatus]

theorem stRerun_not_mem_dispatch (page : String) (pipe : Option ModelPipe) :
    Effect.stRerun ∉ dispatchPage page pipe := by
  cases pipe <;> unfold dispatchPage <;> split_ifs <;> simp

theorem displayHistory_mem_dispatch (pipe : Option ModelPipe) :
    Effect.displayHistoryPage ∈ dispatchPage historyPage pipe := by
  unfold dispatchPage
  rw [if_neg (by decide), if_pos rfl]
  simp

theorem displayData_mem_dispatch (pipe : Option ModelPipe) :
    Effect.displayDataPage ∈ dispatchPage dataPage pipe := by
  unfold dispatchPage
  rw [if_neg (by decide), if_neg (by decide), if_pos rfl]
  simp

theorem chatNotice_mem_dispatch_none (page : String) (h : page ∈ page_options) :
    Effect.errorChatUnavailable ∈ dispatchPage page none ↔ page = chatPage := by
  simp only [page_options, List.mem_cons, List.not_mem_nil, or_false] at h
  rcases h with rfl | rfl | rfl <;> decide

/-- Structure of a pass aborted by the fatal database-initialization error. -/
theorem runPass_db (cache : Option (Option ModelPipe)) (inp : PassInput)
    (h : inp.dbFails = true) :
    runPass cache inp =
      { effects := (if inp.nltkFails then [Effect.warningNLTK] else []) ++
          [Effect.errorDBInit, Effect.stStop],
        sessionPage := inp.sessionPage, bodyRan := false, cache := cache } := by
  unfold runPass
  rw [if_pos h]

/-- Structure of a pass aborted by the reconcile step's `st.rerun`. -/
theorem runPass_rerun (cache : Option (Option ModelPipe)) (inp : PassInput)
    (hdb : inp.dbFails = false) (hne : inp.selectedPage ≠ resolvedPage inp) :
    runPass cache inp =
      { effects := preEffects inp.nltkFails inp.seedFails ++
          (load_model_cached cache inp.loadOutcome).effects ++ [Effect.stRerun],
        sessionPage := some inp.selectedPage,
        bodyRan := (load_model_cached cache inp.loadOutcome).bodyRan,
        cache := (load_model_cached cache inp.loadOutcome).cache } := by
  unfold runPass
  rw [if_neg (by simp [hdb]), if_pos hne]

/-- Structure of a pass that reaches the page dispatch. -/
theorem runPass_dispatch (cache : Option (Option ModelPipe)) (inp : PassInput)
    (hdb : inp.dbFails = false) (hsel : inp.selectedPage = resolvedPage inp) :
    runPass cache inp =
      { effects := preEffects inp.nltkFails inp.seedFails ++
          (load_model_cached cache inp.loadOutcome).effects ++
          [modelStatus (load_model_cached cache inp.loadOutcome).pipe] ++
          dispatchPage (resolvedPage inp) (load_model_cached cache inp.loadOutcome).pipe,
        sessionPage := some (resolvedPage inp),
        bodyRan := (load_model_cached cache inp.loadOutcome).bodyRan,
        cache := (load_model_cached cache inp.loadOutcome).cache } := by
  unfold runPass
  rw [if_neg (by simp [hdb]), if_neg (by simp [hsel])]

theorem runPass_state_db (cache : Option (Option ModelPipe)) (inp : PassInput)
    (h : inp.dbFails = true) :
    (runPass cache inp).bodyRan = false ∧ (runPass cache inp).cache = cache := by
  rw [runPass_db cache inp h]
  exact ⟨rfl, rfl⟩

theorem runPass_state_ok (cache : Option (Option ModelPipe)) (inp : PassInput)
    (h : inp.dbFails = false) :
    (runPass cache inp).bodyRan = (load_model_cached cache inp.loadOutcome).bodyRan ∧
    (runPass cache inp).cache = (load_model_cached cache inp.loadOutcome).cache := by
  by_cases hsel : inp.selectedPage = resolvedPage inp
  · rw [runPass_dispatch cache inp h hsel]; exact ⟨rfl, rfl⟩
  · rw [runPass_rerun cache inp h hsel]; exact ⟨rfl, rfl⟩

/-- Once the cache is populated, no later pass runs the body and the cache
never changes again. -/
theorem runPasses_cached (v : Option ModelPipe) (l : List PassInput) :
    runPasses (some v) l = (some v, 0) := by
  induction l with
  | nil => rfl
  | cons inp rest ih =>
      have h1 : (runPass (some v) inp).cache = some v := by
        cases hdb : inp.dbFails
        · rw [(runPass_state_ok _ _ hdb).2]; rfl
        · exact (runPass_state_db _ _ hdb).2
      have h2 : (runPass (some v) inp).bodyRan = false := by
        cases hdb : inp.dbFails
        · rw [(runPass_state_ok _ _ hdb).1]; rfl
        · exact (runPass_state_db _ _ hdb).1
      simp only [runPasses]
      rw [h1, h2, ih]
      rfl

theorem runPass_rerun_effects (cache : Option (Option ModelPipe)) (inp : PassInput)
    (hdb : inp.dbFails = false) (hne : inp.selectedPage ≠ resolvedPage inp) :
    (runPass cache inp).effects = preEffects inp.nltkFails inp.seedFails ++
      (load_model_cached cache inp.loadOutcome).effects ++ [Effect.stRerun] := by
  rw [runPass_rerun cache inp hdb hne]

theorem runPass_dispatch_effects (cache : Option (Option ModelPipe)) (inp : PassInput)
    (hdb : inp.dbFails = false) (hsel : inp.selectedPage = resolvedPage inp) :
    (runPass cache inp).effects = preEffects inp.nltkFails inp.seedFails ++
      (load_model_cached cache inp.loadOutcome).effects ++
      [modelStatus (load_model_cached cache inp.loadOutcome).pipe] ++
      dispatchPage (resolvedPage inp) (load_model_cached cache inp.loadOutcome).pipe := by
  rw [runPass_dispatch cache inp hdb hsel]

/-! ### Concrete inputs used by the witness theorems -/

/-- A session-state page value outside the enumerated page list. -/
def unknownPage : String := "corrupted-page"

/-- A pass on the Chat page with a failed model load. -/
def wChatAbsent : PassInput :=
  { nltkFails := false, dbFails := false, seedFails := false,
    loadOutcome := LoadOutcome.otherError, sessionPage := some chatPage,
    selectedPage := chatPage }

/-- A pass whose radio selection (History) differs from the stored page (Chat). -/
def wChanged : PassInput :=
  { nltkFails := false, dbFails := false, seedFails := false,
    loadOutcome := LoadOutcome.success { tag := 0 }, sessionPage := some chatPage,
    selectedPage := historyPage }

/-- A pass whose radio selection equals the stored page (History). -/
def wSame : PassInput :=
  { nltkFails := false, dbFails := false, seedFails := false,
    loadOutcome := LoadOutcome.success { tag := 0 }, sessionPage := some historyPage,
    selectedPage := historyPage }

/-- A fresh session: no stored page, Chat selected. -/
def wFresh : PassInput :=
  { nltkFails := false, dbFails := false, seedFails := false,
    loadOutcome := LoadOutcome.success { tag := 0 }, sessionPage := none,
    selectedPage := chatPage }

/-- A pass on which database initialization raises. -/
def wDbFail : PassInput :=
  { nltkFails := false, dbFails := true, seedFails := false,
    loadOutcome := LoadOutcome.success { tag := 0 }, sessionPage := some chatPage,
    selectedPage := chatPage }

/-- A pass on the History page with a failed model load. -/
def wHist : PassInput :=
  { nltkFails := false, dbFails := false, seedFails := false,
    loadOutcome := LoadOutcome.otherError, sessionPage := some historyPage,
    selectedPage := historyPage }

/-- A pass on the History page with a failed model load and a seed-data
warning, for the notice-location counterexample. -/
def wHistNotice : PassInput :=
  { nltkFails := false, dbFails := false, seedFails := true,
    loadOutcome := LoadOutcome.otherError, sessionPage := some historyPage,
    selectedPage := historyPage }

/-- A pass on the SampleDataManagement page with a failed model load. -/
def wData : PassInput :=
  { nltkFails := false, dbFails := false, seedFails := false,
    loadOutcome := LoadOutcome.otherError, sessionPage := some dataPage,
    selectedPage := dataPage }

/-- A pass with a failed model load whose selection (SampleDataManagement)
differs from the stored page (Chat). -/
def wRerunSkip : PassInput :=
  { nltkFails := false, dbFails := false, seedFails := false,
    loadOutcome := LoadOutcome.otherError, sessionPage := some chatPage,
    selectedPage := dataPage }

/-! ### Claim theorems -/

/-- C1: in every rendering pass whose model handle is absent and whose stored
page resolves to Chat, the dispatch step renders the chat-unavailable failure
notice and never invokes the chat-rendering collaborator
`ui.display_chat_page`. -/
theorem chat_dispatch_absent_model (cache : Option (Option ModelPipe)) (inp : PassInput)
    (hdb : inp.dbFails = false) (hpipe : passPipe cache inp = none)
    (hpage : resolvedPage inp = chatPage) (hsel : inp.selectedPage = resolvedPage inp) :
    Effect.errorChatUnavailable ∈ (runPass cache inp).effects ∧
    ∀ p : ModelPipe, Effect.displayChatPage p ∉ (runPass cache inp).effects := by
  unfold passPipe at hpipe
  rw [runPass_dispatch_effects cache inp hdb hsel, hpage, hpipe]
  constructor
  · refine List.mem_append.mpr (Or.inr ?_)
    rw [dispatchPage, if_pos rfl]
    simp
  · intro p hmem
    rcases List.mem_append.mp hmem with h | h
    · rcases List.mem_append.mp h with h | h
      · exact displayChat_not_mem_core _ _ _ _ p h
      · simp [modelStatus] at h
    · rw [dispatchPage, if_pos rfl] at h
      simp at h

/-- Witness for C1 at a concrete pass: Chat page stored, model load failed. -/
theorem chat_dispatch_absent_model_witness :
    wChatAbsent.dbFails = false ∧ passPipe none wChatAbsent = none ∧
    resolvedPage wChatAbsent = chatPage ∧
    Effect.errorChatUnavailable ∈ (runPass none wChatAbsent).effects :=
  ⟨by decide, by decide, by decide,
    (chat_dispatch_absent_model none wChatAbsent (by decide) (by decide) (by decide)
      (by decide)).1⟩

/-- C2: in every rendering pass whose radio selection differs from the stored
page, the reconcile step overwrites the stored page with exactly the selected
value and issues exactly one `st.rerun` request. -/
theorem reconcile_changed_updates_and_reruns_once (cache : Option (Option ModelPipe))
    (inp : PassInput) (hdb : inp.dbFails = false)
    (hne : inp.selectedPage ≠ resolvedPage inp) :
    (runPass cache inp).sessionPage = some inp.selectedPage ∧
    (runPass cache inp).effects.count Effect.stRerun = 1 := by
  refine ⟨?_, ?_⟩
  · rw [runPass_rerun cache inp hdb hne]
  · rw [runPass_rerun_effects cache inp hdb hne, List.count_append,
      List.count_eq_zero.mpr (stRerun_not_mem_core _ _ _ _)]
    rfl

/-- Witness for C2 at a concrete pass: stored Chat, History selected. -/
theorem reconcile_changed_witness :
    wChanged.dbFails = false ∧ wChanged.selectedPage ≠ resolvedPage wChanged ∧
    (runPass none wChanged).sessionPage = some wChanged.selectedPage ∧
    (runPass none wChanged).effects.count Effect.stRerun = 1 := by
  have h := reconcile_changed_updates_and_reruns_once none wChanged (by decide) (by decide)
  exact ⟨by decide, by decide, h.1, h.2⟩

/-- C3: in every rendering pass whose radio selection equals the stored page,
the reconcile step leaves the stored page unchanged and issues no `st.rerun`
request. -/
theorem reconcile_same_page_no_rerun (cache : Option (Option ModelPipe))
    (inp : PassInput) (hdb : inp.dbFails = false)
    (hsel : inp.selectedPage = resolvedPage inp) :
    (runPass cache inp).sessionPage = some (resolvedPage inp) ∧
    (runPass cache inp).effects.count Effect.stRerun = 0 := by
  refine ⟨?_, ?_⟩
  · rw [runPass_dispatch cache inp hdb hsel]
  · rw [runPass_dispatch_effects cache inp hdb hsel, List.count_append, List.count_append,
      List.count_eq_zero.mpr (stRerun_not_mem_core _ _ _ _),
      List.count_eq_zero.mpr (stRerun_not_mem_status _),
      List.count_eq_zero.mpr (stRerun_not_mem_dispatch _ _)]

/-- Witness for C3 at a concrete pass: History stored and re-selected. -/
theorem reconcile_same_page_witness :
    wSame.dbFails = false ∧ wSame.selectedPage = resolvedPage wSame ∧
    (runPass none wSame).sessionPage = some (resolvedPage wSame) ∧
    (runPass none wSame).effects.count Effect.stRerun = 0 := by
  have h := reconcile_same_page_no_rerun none wSame (by decide) (by decide)
  exact ⟨by decide, by decide, h.1, h.2⟩

/-- C4: for every stored page value outside the enumerated page list, the
resolve-selection step resets the stored page to the first entry (Chat) and
uses index 0, raising no error (the embedding is a total function). -/
theorem resolve_unknown_page_resets_to_chat (s : String) (h : s ∉ page_options) :
    resolveSelection s = (0, chatPage) := by
  rw [resolveSelection, listIndex_eq_none_of_not_mem s page_options h]

/-- Witness for C4 at a concrete out-of-list value. -/
theorem resolve_unknown_page_witness :
    unknownPage ∉ page_options ∧ resolveSelection unknownPage = (0, chatPage) :=
  ⟨by decide, resolve_unknown_page_resets_to_chat unknownPage (by decide)⟩

/-- C5: after the initialize and resolve steps, and preserved by the
reconcile step (whose written value is the radio selection, drawn from the
option list), the stored page of any pass that reaches the sidebar is one of
the three enumerated values. -/
theorem stored_page_invariant (cache : Option (Option ModelPipe)) (inp : PassInput)
    (p : String) (hdb : inp.dbFails = false)
    (hselmem : inp.selectedPage ∈ page_options)
    (hout : (runPass cache inp).sessionPage = some p) : p ∈ page_options := by
  by_cases hsel : inp.selectedPage = resolvedPage inp
  · rw [runPass_dispatch cache inp hdb hsel] at hout
    simp only [Option.some.injEq] at hout
    exact hout ▸ resolvedPage_mem inp
  · rw [runPass_rerun cache inp hdb hsel] at hout
    simp only [Option.some.injEq] at hout
    exact hout ▸ hselmem

/-- Witness for C5 at a concrete fresh session (no stored page). -/
theorem stored_page_invariant_witness :
    wFresh.dbFails = false ∧ wFresh.selectedPage ∈ page_options ∧
    (runPass none wFresh).sessionPage = some chatPage ∧ chatPage ∈ page_options :=
  ⟨by decide, by decide, by decide,
    stored_page_invariant none wFresh chatPage (by decide) (by decide) (by decide)⟩

/-- C6: when database initialization raises, the pass displays the fatal
error and stops at `st.stop`: no render collaborator is invoked and the
model-construction body does not run in that pass. -/
theorem db_init_failure_halts (cache : Option (Option ModelPipe)) (inp : PassInput)
    (hdb : inp.dbFails = true) :
    Effect.errorDBInit ∈ (runPass cache inp).effects ∧
    Effect.stStop ∈ (runPass cache inp).effects ∧
    (∀ p : ModelPipe, Effect.displayChatPage p ∉ (runPass cache inp).effects) ∧
    Effect.displayHistoryPage ∉ (runPass cache inp).effects ∧
    Effect.displayDataPage ∉ (runPass cache inp).effects ∧
    (runPass cache inp).bodyRan = false := by
  rw [runPass_db cache inp hdb]
  cases hn : inp.nltkFails <;> simp

/-- Witness for C6 at a concrete pass whose database init raises. -/
theorem db_init_failure_halts_witness :
    wDbFail.dbFails = true ∧ Effect.errorDBInit ∈ (runPass none wDbFail).effects ∧
    Effect.stStop ∈ (runPass none wDbFail).effects := by
  have h := db_init_failure_halts none wDbFail (by decide)
  exact ⟨by decide, h.1, h.2.1⟩

/-- C7: in every pass that reaches the dispatch, the History branch invokes
`ui.display_history_page` and the SampleDataManagement branch invokes
`ui.display_data_page`, for any model-load outcome and cache state. -/
theorem history_data_dispatch_unconditional (cache : Option (Option ModelPipe))
    (inp : PassInput) (hdb : inp.dbFails = false)
    (hsel : inp.selectedPage = resolvedPage inp) :
    (resolvedPage inp = historyPage →
      Effect.displayHistoryPage ∈ (runPass cache inp).effects) ∧
    (resolvedPage inp = dataPage →
      Effect.displayDataPage ∈ (runPass cache inp).effects) := by
  rw [runPass_dispatch_effects cache inp hdb hsel]
  constructor
  · intro hp
    rw [hp]
    exact List.mem_append.mpr (Or.inr (displayHistory_mem_dispatch _))
  · intro hp
    rw [hp]
    exact List.mem_append.mpr (Or.inr (displayData_mem_dispatch _))

/-- Witness for C7 at a concrete pass: History page with a failed model load. -/
theorem history_data_dispatch_witness :
    wHist.dbFails = false ∧ passPipe none wHist = none ∧
    resolvedPage wHist = historyPage ∧
    Effect.displayHistoryPage ∈ (runPass none wHist).effects := by
  have h := history_data_dispatch_unconditional none wHist (by decide) (by decide)
  exact ⟨by decide, by decide, by decide, h.1 (by decide)⟩

/-- C8: across any sequence of rendering passes of one process starting from
a cold cache, the model-construction body runs at most once; and any call on
a populated cache returns the memoized handle with the body not running. -/
theorem model_body_runs_at_most_once (l : List PassInput) :
    (runPasses none l).2 ≤ 1 ∧
    ∀ (v : Option ModelPipe) (o : LoadOutcome),
      load_model_cached (some v) o =
        { pipe := v, cache := some v, bodyRan := false, effects := [] } := by
  refine ⟨?_, fun v o => rfl⟩
  induction l with
  | nil => exact Nat.zero_le 1
  | cons inp rest ih =>
      simp only [runPasses]
      cases hdb : inp.dbFails
      · have hb : (runPass none inp).bodyRan = true := by
          rw [(runPass_state_ok none inp hdb).1]; rfl
        have hc : (runPass none inp).cache = some (loadModelBody inp.loadOutcome).1 := by
          rw [(runPass_state_ok none inp hdb).2]; rfl
        rw [hb, hc, runPasses_cached]
        exact Nat.le_refl 1
      · have hb := (runPass_state_db none inp hdb).1
        have hc := (runPass_state_db none inp hdb).2
        rw [hb, hc]
        simpa using ih

/-- C9 counterexample: on a History-page pass with the model handle absent,
the sidebar still produces the user-visible model-failure notice, so the
absence notice is not confined to Chat-page dispatch. -/
theorem model_absence_notice_counterexample :
    resolvedPage wHistNotice = historyPage ∧ historyPage ≠ chatPage ∧
    Effect.errorModelFailed ∈ (runPass none wHistNotice).effects ∧
    Effect.errorChatUnavailable ∉ (runPass none wHistNotice).effects :=
  ⟨by decide, by decide, by decide, by decide⟩

/-- C9 amended: when the model handle is absent, the sidebar model-failure
status appears on every completed pass regardless of page; the dispatch-time
chat-unavailable notice appears exactly on the Chat page; and navigation is
not blocked: History and SampleDataManagement still invoke their
collaborators. -/
theorem model_absence_notice_amended (cache : Option (Option ModelPipe))
    (inp : PassInput) (hdb : inp.dbFails = false)
    (hpipe : passPipe cache inp = none)
    (hsel : inp.selectedPage = resolvedPage inp) :
    Effect.errorModelFailed ∈ (runPass cache inp).effects ∧
    (Effect.errorChatUnavailable ∈ (runPass cache inp).effects ↔
      resolvedPage inp = chatPage) ∧
    (resolvedPage inp = historyPage →
      Effect.displayHistoryPage ∈ (runPass cache inp).effects) ∧
    (resolvedPage inp = dataPage →
      Effect.displayDataPage ∈ (runPass cache inp).effects) := by
  unfold passPipe at hpipe
  rw [runPass_dispatch_effects cache inp hdb hsel, hpipe]
  refine ⟨?_, ⟨?_, ?_⟩, ?_, ?_⟩
  · refine List.mem_append.mpr (Or.inl (List.mem_append.mpr (Or.inr ?_)))
    simp [modelStatus]
  · intro hmem
    rcases List.mem_append.mp hmem with h | h
    · rcases List.mem_append.mp h with h | h
      · exact absurd h (chatNotice_not_mem_core _ _ _ _)
      · simp [modelStatus] at h
    · exact (chatNotice_mem_dispatch_none _ (resolvedPage_mem inp)).mp h
  · intro hp
    rw [hp]
    refine List.mem_append.mpr (Or.inr ?_)
    rw [dispatchPage, if_pos rfl]
    simp
  · intro hp
    rw [hp]
    exact List.mem_append.mpr (Or.inr (displayHistory_mem_dispatch _))
  · intro hp
    rw [hp]
    exact List.mem_append.mpr (Or.inr (displayData_mem_dispatch _))

/-- Witness for the amended C9 at a concrete pass: SampleDataManagement page
with a failed model load. -/
theorem model_absence_notice_amended_witness :
    wData.dbFails = false ∧ passPipe none wData = none ∧
    Effect.errorModelFailed ∈ (runPass none wData).effects ∧
    Effect.displayDataPage ∈ (runPass none wData).effects := by
  have h := model_absence_notice_amended none wData (by decide) (by decide) (by decide)
  exact ⟨by decide, by decide, h.1, h.2.2.2 (by decide)⟩

/-- C10: in every pass where the reconcile step detects a changed selection,
the `st.rerun` request ends the pass and none of the three render
collaborators is invoked during that pass. -/
theorem rerun_aborts_pass_before_dispatch (cache : Option (Option ModelPipe))
    (inp : PassInput) (hdb : inp.dbFails = false)
    (hne : inp.selectedPage ≠ resolvedPage inp) :
    Effect.stRerun ∈ (runPass cache inp).effects ∧
    (∀ p : ModelPipe, Effect.displayChatPage p ∉ (runPass cache inp).effects) ∧
    Effect.displayHistoryPage ∉ (runPass cache inp).effects ∧
    Effect.displayDataPage ∉ (runPass cache inp).effects := by
  rw [runPass_rerun_effects cache inp hdb hne]
  refine ⟨List.mem_append.mpr (Or.inr (List.mem_singleton.mpr rfl)), ?_, ?_, ?_⟩
  · intro p hmem
    rcases List.mem_append.mp hmem with h | h
    · exact displayChat_not_mem_core _ _ _ _ p h
    · simp at h
  · intro hmem
    rcases List.mem_append.mp hmem with h | h
    · exact displayHistory_not_mem_core _ _ _ _ h
    · simp at h
  · intro hmem
    rcases List.mem_append.mp hmem with h | h
    · exact displayData_not_mem_core _ _ _ _ h
    · simp at h

/-- Witness for C10 at a concrete pass: stored Chat, SampleDataManagement
selected. -/
theorem rerun_aborts_pass_witness :
    wRerunSkip.dbFails = false ∧ wRerunSkip.selectedPage ≠ resolvedPage wRerunSkip ∧
    Effect.stRerun ∈ (runPass none wRerunSkip).effects ∧
    Effect.displayDataPage ∉ (runPass none wRerunSkip).effects := by
  have h := rerun_aborts_pass_before_dispatch none wRerunSkip (by decide) (by decide)
  exact ⟨by decide, by decide, h.1, h.2.2.2⟩

end StreamlitApp
